import Mathlib

/-!
Shallow embedding of the iOS-Simulator automation tool
(`skills/ios-simulator/scripts/ios_sim.py`) and proofs about its
element-lookup, coordinate-computation, scroll-gesture, action-sequencing,
and error-handling logic.

Numeric frame/coordinate values (Python floats used only through `+`, `/ 2`,
`max`) are modelled as exact rationals `ℚ`.  Python dictionaries with
optional keys are modelled as structures with `Option` fields, `dict.get`
with a default becoming `Option.getD`.
-/

namespace IosSim

/-- A UI accessibility element frame, mirroring the Python `frame` dict whose
keys `x`, `y`, `width`, `height` may each be absent. -/
structure Frame where
  x : Option ℚ
  y : Option ℚ
  width : Option ℚ
  height : Option ℚ
deriving DecidableEq, Repr

/-- A UI accessibility element, mirroring the Python element dict: every key
may be absent (`e.get(...)` returning `None`). -/
structure Element where
  AXLabel : Option String
  title : Option String
  AXValue : Option String
  role : Option String
  type : Option String
  frame : Option Frame
  enabled : Option Bool
deriving DecidableEq, Repr

/-- Python `str.lower()` (ASCII case mapping), character by character.
Modelled structurally so that it evaluates inside the kernel. -/
def py_lower (s : String) : String :=
  ⟨s.data.map Char.toLower⟩

/-- Python `str.upper()` (ASCII case mapping), character by character. -/
def py_upper (s : String) : String :=
  ⟨s.data.map Char.toUpper⟩

/-- Python `max(a, b)` on two numbers: the second argument when it is
strictly larger, the first otherwise. -/
def py_max (a b : ℚ) : ℚ :=
  if a < b then b else a

/-- Test whether the character list `q` is an initial segment of `c`. -/
def listStartsWith : List Char → List Char → Bool
  | [], _ => true
  | _ :: _, [] => false
  | a :: as, b :: bs => a == b && listStartsWith as bs

/-- Test whether the character list `q` occurs contiguously in `c`. -/
def listContainsSeq (q : List Char) : List Char → Bool
  | [] => q.isEmpty
  | b :: bs => listStartsWith q (b :: bs) || listContainsSeq q bs

/-- Python substring test `q in c` on strings. -/
def py_in (q c : String) : Bool :=
  listContainsSeq q.toList c.toList

/-- The three lowered candidate strings of an element, mirroring
`[(e.get("AXLabel") or "").lower(), (e.get("title") or "").lower(),
(e.get("AXValue") or "").lower()]` in `find_element`. -/
def elem_candidates (e : Element) : List String :=
  [py_lower (e.AXLabel.getD ""), py_lower (e.title.getD ""), py_lower (e.AXValue.getD "")]

/-- One pass of the matching test in `find_element`: with `exact = true` the
test `q in candidates` (list membership, i.e. equality with some candidate),
with `exact = false` the test `any(q in c for c in candidates if c)`
(substring containment in some non-empty candidate). -/
def elem_match (exact : Bool) (q : String) (e : Element) : Bool :=
  if exact then (elem_candidates e).contains q
  else (elem_candidates e).any fun c => !c.isEmpty && py_in q c

/-- The inner `for e in elements` loop of `find_element` for a fixed pass:
returns the first element matching, or `none`. -/
def find_pass (exact : Bool) (q : String) : List Element → Option Element
  | [] => none
  | e :: es => if elem_match exact q e then some e else find_pass exact q es

/-- Model of `find_element(elements, query)`: lowers the query, runs the exact pass
over the whole list, then the substring pass; `None` when both fail. -/
def find_element (elements : List Element) (query : String) : Option Element :=
  match find_pass true (py_lower query) elements with
  | some e => some e
  | none => find_pass false (py_lower query) elements

/-- Model of `element_center(element)`: `(frame.get("x",0) + frame.get("width",0)/2,
frame.get("y",0) + frame.get("height",0)/2)`, with `element.get("frame", {})`
defaulting to the empty dict. -/
def element_center (e : Element) : ℚ × ℚ :=
  let f := e.frame.getD ⟨none, none, none, none⟩
  (f.x.getD 0 + f.width.getD 0 / 2, f.y.getD 0 + f.height.getD 0 / 2)

/-- The `direction_map` dict built in `cmd_scroll` from the screen centre
`(cx, cy)` and the scroll distance, as an association list in the key order
of the source. -/
def direction_map (cx cy dist : ℚ) : List (String × (ℚ × ℚ × ℚ × ℚ)) :=
  [("down", (cx, cy + dist / 2, cx, cy - dist / 2)),
   ("up", (cx, cy - dist / 2, cx, cy + dist / 2)),
   ("left", (cx + dist / 2, cy, cx - dist / 2, cy)),
   ("right", (cx - dist / 2, cy, cx + dist / 2, cy))]

/-- The dict lookup `direction_map[args.direction]` in `cmd_scroll`. -/
def direction_lookup (cx cy dist : ℚ) (direction : String) : Option (ℚ × ℚ × ℚ × ℚ) :=
  (direction_map cx cy dist).lookup direction

/-- The clamping `max(0, x1), max(0, y1), max(0, x2), max(0, y2)` applied in
`cmd_scroll` to the looked-up swipe tuple. -/
def clamp0 (v : ℚ × ℚ × ℚ × ℚ) : ℚ × ℚ × ℚ × ℚ :=
  (py_max 0 v.1, py_max 0 v.2.1, py_max 0 v.2.2.1, py_max 0 v.2.2.2)

/-- Screen-size probing in `cmd_scroll`: the frame width/height of the first
`AXApplication` element, each defaulting to 390/844 when absent. -/
def probe_screen_size (elements : List Element) : ℚ × ℚ :=
  match elements.find? (fun e => e.role == some "AXApplication") with
  | some app =>
    let f := app.frame.getD ⟨none, none, none, none⟩
    (f.width.getD 390, f.height.getD 844)
  | none => (390, 844)

/-- The swipe tuple `(x1, y1, x2, y2)` computed by `cmd_scroll` from screen
size `w × h`, distance and direction: direction-table lookup at the screen
centre followed by the non-negativity clamp. -/
def scroll_swipe (w h dist : ℚ) (direction : String) : Option (ℚ × ℚ × ℚ × ℚ) :=
  (direction_lookup (w / 2) (h / 2) dist direction).map clamp0

/-- Full coordinate computation of `cmd_scroll`: probe the screen size from
the pre-action snapshot, then compute the clamped swipe tuple. -/
def cmd_scroll_swipe (elements : List Element) (direction : String) (dist : ℚ) :
    Option (ℚ × ℚ × ℚ × ℚ) :=
  scroll_swipe (probe_screen_size elements).1 (probe_screen_size elements).2 dist direction

/-- The observable steps a command performs, in order: a `describe-all`
snapshot, a rendered UI summary, an external tool invocation, the fixed
1-second settle delay, a diagnostic print to stderr, or `sys.exit(code)`. -/
inductive UIEvent
  | snapshot
  | renderSummary
  | perform (cmd : String)
  | settle
  | diagnostic
  | exitWith (code : Nat)
deriving DecidableEq, Repr

/-- Model of `with_ui_hooks(udid, name, action)`: pre-snapshot and summary, the
own events of the action, the settle sleep, post-snapshot and summary. -/
def with_ui_hooks (action : List UIEvent) : List UIEvent :=
  [.snapshot, .renderSummary] ++ action ++ [.settle, .snapshot, .renderSummary]

/-- Event trace of `cmd_tap`. -/
def cmd_tap_trace : List UIEvent :=
  with_ui_hooks [.perform "idb ui tap"]

/-- Event trace of `cmd_swipe`. -/
def cmd_swipe_trace : List UIEvent :=
  with_ui_hooks [.perform "idb ui swipe"]

/-- Event trace of `cmd_text`. -/
def cmd_text_trace : List UIEvent :=
  with_ui_hooks [.perform "idb ui text"]

/-- Event trace of `cmd_openurl`. -/
def cmd_openurl_trace : List UIEvent :=
  with_ui_hooks [.perform "idb open"]

/-- Event trace of `cmd_tap_element`: snapshot and summary first; if the
label lookup fails, print the available labels and `sys.exit(1)`; otherwise
tap the element centre, sleep, snapshot and summarise again. -/
def cmd_tap_element_trace (elements : List Element) (label : String) : List UIEvent :=
  [.snapshot, .renderSummary] ++
    match find_element elements label with
    | none => [.diagnostic, .exitWith 1]
    | some _ => [.perform "idb ui tap", .settle, .snapshot, .renderSummary]

/-- Event trace of `cmd_scroll`: the single pre-action `describe_all` (also
used to probe the screen size), the summary, the swipe, the settle sleep,
then the post-action snapshot and summary. -/
def cmd_scroll_trace : List UIEvent :=
  [.snapshot, .renderSummary, .perform "idb ui swipe", .settle, .snapshot, .renderSummary]

/-- The `NAMED_KEYS` table of `cmd_key`. -/
def NAMED_KEYS : List (String × Nat) :=
  [("enter", 40), ("return", 40),
   ("backspace", 42), ("delete", 42),
   ("tab", 43),
   ("space", 44),
   ("escape", 41),
   ("right", 79), ("left", 80), ("down", 81), ("up", 82),
   ("home", 74), ("end", 77),
   ("f1", 58), ("f2", 59), ("f3", 60), ("f4", 61)]

/-- Python `str.isdigit()` restricted to ASCII: non-empty and all digits. -/
def str_isdigit (s : String) : Bool :=
  !s.isEmpty && s.toList.all Char.isDigit

/-- The key-argument translation of `cmd_key`: an all-digit string is kept
as-is; otherwise `str(NAMED_KEYS.get(key.lower(), key))` — the code of the
named key rendered in decimal, or the original string when not in the table. -/
def cmd_key_val (key : String) : String :=
  if str_isdigit key then key
  else
    match NAMED_KEYS.lookup (py_lower key) with
    | some code => toString code
    | none => key

/-- Event trace of `cmd_key`: the translated key is always forwarded to
`idb ui key` inside the hooks; there is no local rejection branch. -/
def cmd_key_trace (key : String) : List UIEvent :=
  with_ui_hooks [.perform ("idb ui key " ++ cmd_key_val key)]

/-- The `valid` hardware-button set of `cmd_button`. -/
def valid_buttons : List String :=
  ["APPLE_PAY", "HOME", "LOCK", "SIDE_BUTTON", "SIRI"]

/-- Event trace of `cmd_button`: the upper-cased name is validated first;
an invalid name prints a diagnostic and exits with code 1, a valid one runs
inside the hooks. -/
def cmd_button_trace (button : String) : List UIEvent :=
  if valid_buttons.contains (py_upper button) then
    with_ui_hooks [.perform ("idb ui button " ++ py_upper button)]
  else [.diagnostic, .exitWith 1]

/-- A finished external process, mirroring `subprocess.CompletedProcess`. -/
structure CompletedProcess where
  returncode : Int
  stdout : String
  stderr : String
deriving DecidableEq, Repr

/-- The lines `run` prints to stderr when a checked command fails: the
`ERROR:` line with the joined argv, then the stderr text if non-empty. -/
def run_error_output (cmd : List String) (result : CompletedProcess) : List String :=
  ("ERROR: " ++ String.intercalate " " cmd) ::
    (if result.stderr ≠ "" then [result.stderr] else [])

/-- The `run` helper: given the completed process of `subprocess.run(cmd)`,
with `check` set and a non-zero return code it prints the error lines and
exits with the return code of the process (modelled as `Except.error`);
otherwise it returns the result. -/
def run (cmd : List String) (result : CompletedProcess) (check : Bool) :
    Except (Int × List String) CompletedProcess :=
  if check = true ∧ result.returncode ≠ 0 then
    .error (result.returncode, run_error_output cmd result)
  else .ok result

/-- The `choices=["up", "down", "left", "right"]` list of the `scroll`
subparser. -/
def scroll_direction_choices : List String :=
  ["up", "down", "left", "right"]

/-- Argparse validation of the scroll `direction` positional: a value
outside `choices` is rejected at parse time, before `cmd_scroll` runs. -/
def parse_scroll_direction (s : String) : Option String :=
  if scroll_direction_choices.contains s then some s else none

/-- The reflection of a swipe tuple point-by-point through the screen centre
`(cx, cy)`: both the start point and the end point are reflected. -/
def point_reflect (cx cy : ℚ) (v : ℚ × ℚ × ℚ × ℚ) : ℚ × ℚ × ℚ × ℚ :=
  (2 * cx - v.1, 2 * cy - v.2.1, 2 * cx - v.2.2.1, 2 * cy - v.2.2.2)

/-- The before/after sequencing the specification promises of every
state-mutating navigation command, stated from the words of the spec:
snapshot, summary, the external action, settle delay, snapshot, summary. -/
def hook_pattern (cmd : String) : List UIEvent :=
  [.snapshot, .renderSummary, .perform cmd, .settle, .snapshot, .renderSummary]

/-- Sample element whose label only contains the query `"Save"` as a
substring. -/
def sample_sub : Element :=
  ⟨some "Save All Files", none, none, none, none, none, none⟩

/-- Sample element whose title equals the query `"Save"` case-insensitively. -/
def sample_exact : Element :=
  ⟨none, some "save", none, none, none, none, none⟩

/-- Sample element with the frame of the worked example of the spec. -/
def sample_frame_elem : Element :=
  ⟨none, none, none, none, none, some ⟨some 100, some 200, some 50, some 20⟩, none⟩

/-- Sample `AXApplication` element advertising a 390 × 844 screen. -/
def sample_app : Element :=
  ⟨none, none, none, some "AXApplication", none, some ⟨some 0, some 0, some 390, some 844⟩, none⟩

section Lemmas

/-- The pass loop is exactly a first-match scan. -/
theorem find_pass_eq_find? (b : Bool) (q : String) :
    ∀ l : List Element, find_pass b q l = l.find? (elem_match b q) := by
  intro l
  induction l with
  | nil => rfl
  | cons e es ih =>
    by_cases h : elem_match b q e = true <;>
      simp [find_pass, List.find?_cons, h, ih]

/-- The first argument of `py_max` bounds the result from below. -/
theorem le_py_max_left (a b : ℚ) : a ≤ py_max a b := by
  unfold py_max
  split
  · exact le_of_lt ‹_›
  · exact le_refl a

end Lemmas

/-- C1: `find_element` returns the first element, in list order, satisfying
the active pass: if it returns `some e`, either `e` is an exact match and
every earlier element is not, or no element at all is an exact match and
`e` is the first substring match; it returns the sentinel `none` exactly
when no element satisfies either pass. -/
theorem find_element_first_match (elements : List Element) (query : String) :
    (∀ e, find_element elements query = some e →
      (elem_match true (py_lower query) e = true ∧
        ∃ l₁ l₂, elements = l₁ ++ e :: l₂ ∧
          ∀ x ∈ l₁, elem_match true (py_lower query) x = false) ∨
      ((∀ x ∈ elements, elem_match true (py_lower query) x = false) ∧
        elem_match false (py_lower query) e = true ∧
        ∃ l₁ l₂, elements = l₁ ++ e :: l₂ ∧
          ∀ x ∈ l₁, elem_match false (py_lower query) x = false)) ∧
    (find_element elements query = none ↔
      ∀ e ∈ elements, elem_match true (py_lower query) e = false ∧
        elem_match false (py_lower query) e = false) := by
  unfold find_element
  rw [find_pass_eq_find?, find_pass_eq_find?]
  cases h1 : elements.find? (elem_match true (py_lower query)) with
  | some e0 =>
    rw [List.find?_eq_some] at h1
    obtain ⟨hp, l₁, l₂, rfl, hall⟩ := h1
    constructor
    · intro e he
      injection he with he
      subst he
      exact Or.inl ⟨hp, l₁, l₂, rfl, fun x hx => by
        simpa using hall x hx⟩
    · constructor
      · intro he
        cases he
      · intro hall2
        have := (hall2 e0 (by simp)).1
        rw [hp] at this
        cases this
  | none =>
    rw [List.find?_eq_none] at h1
    have h1' : ∀ x ∈ elements, elem_match true (py_lower query) x = false := by
      intro x hx
      simpa using h1 x hx
    cases h2 : elements.find? (elem_match false (py_lower query)) with
    | some e0 =>
      rw [List.find?_eq_some] at h2
      obtain ⟨hp, l₁, l₂, heq, hall⟩ := h2
      constructor
      · intro e he
        injection he with he
        subst he
        exact Or.inr ⟨h1', hp, l₁, l₂, heq, fun x hx => by simpa using hall x hx⟩
      · constructor
        · intro he
          cases he
        · intro hall2
          have hmem : e0 ∈ elements := by
            rw [heq]
            simp
          have := (hall2 e0 hmem).2
          rw [hp] at this
          cases this
    | none =>
      rw [List.find?_eq_none] at h2
      refine ⟨fun e he => absurd he (by simp), ?_⟩
      constructor
      · intro _ e he
        exact ⟨h1' e he, by simpa using h2 e he⟩
      · intro _
        rfl

/-- Witness for C1: on a concrete list whose first element is only a
substring match and whose second is an exact match, `find_element` returns
the exact match, and the characterisation instantiates there. -/
theorem find_element_first_match_witness :
    (elem_match true (py_lower "Save") sample_exact = true ∧
      ∃ l₁ l₂, [sample_sub, sample_exact] = l₁ ++ sample_exact :: l₂ ∧
        ∀ x ∈ l₁, elem_match true (py_lower "Save") x = false) ∨
    ((∀ x ∈ [sample_sub, sample_exact], elem_match true (py_lower "Save") x = false) ∧
      elem_match false (py_lower "Save") sample_exact = true ∧
      ∃ l₁ l₂, [sample_sub, sample_exact] = l₁ ++ sample_exact :: l₂ ∧
        ∀ x ∈ l₁, elem_match false (py_lower "Save") x = false) :=
  (find_element_first_match [sample_sub, sample_exact] "Save").1 sample_exact rfl

/-- C2: whenever some element of the list is an exact (case-insensitive)
match for the query, `find_element` returns an exact-matching element —
substring-only matches, wherever they occur in the list, cannot win. -/
theorem find_element_exact_preferred (elements : List Element) (query : String)
    (h : ∃ e ∈ elements, elem_match true (py_lower query) e = true) :
    ∃ e, find_element elements query = some e ∧
      elem_match true (py_lower query) e = true := by
  unfold find_element
  rw [find_pass_eq_find?]
  cases h1 : elements.find? (elem_match true (py_lower query)) with
  | some e0 =>
    exact ⟨e0, rfl, List.find?_some h1⟩
  | none =>
    rw [List.find?_eq_none] at h1
    obtain ⟨e, he, hm⟩ := h
    exact absurd hm (h1 e he)

/-- Witness for C2: the query `"Save"` exactly matches the second element
while the first element contains it only as a substring; `find_element`
still returns an exact match. -/
theorem find_element_exact_preferred_witness :
    ∃ e, find_element [sample_sub, sample_exact] "Save" = some e ∧
      elem_match true (py_lower "Save") e = true :=
  find_element_exact_preferred [sample_sub, sample_exact] "Save"
    ⟨sample_exact, by decide, by decide⟩

/-- C4: the element centre is `(x + w/2, y + h/2)` per axis for every fully
given frame, a zero-size frame has its origin as centre, and the worked
example frame `{x:100, y:200, w:50, h:20}` has centre `(125, 210)`. -/
theorem element_center_formula :
    (∀ (e : Element) (x y w h : ℚ), e.frame = some ⟨some x, some y, some w, some h⟩ →
      element_center e = (x + w / 2, y + h / 2)) ∧
    (∀ (e : Element) (x y : ℚ), e.frame = some ⟨some x, some y, some 0, some 0⟩ →
      element_center e = (x, y)) ∧
    element_center sample_frame_elem = (125, 210) := by
  refine ⟨?_, ?_, ?_⟩
  · intro e x y w h hf
    simp [element_center, hf]
  · intro e x y hf
    simp [element_center, hf]
  · show ((100 : ℚ) + 50 / 2, (200 : ℚ) + 20 / 2) = (125, 210)
    norm_num

/-- Witness for C4: the formula instantiated at the worked example frame. -/
theorem element_center_formula_witness :
    element_center sample_frame_elem = (100 + 50 / 2, 200 + 20 / 2) :=
  element_center_formula.1 sample_frame_elem 100 200 50 20 rfl

/-- Counterexample to C3: on a 390 × 844 screen the centre is `(195, 422)`,
so scrolling down by 300 computes the finger swipe `(195, 572) → (195, 272)`
and not the `(195, 372) → (195, 72)` the claim states. -/
theorem cmd_scroll_example_counterexample :
    cmd_scroll_swipe [sample_app] "down" 300 = some (195, 572, 195, 272) ∧
      cmd_scroll_swipe [sample_app] "down" 300 ≠ some (195, 372, 195, 72) := by
  have h : cmd_scroll_swipe [sample_app] "down" 300 =
      some (clamp0 (390 / 2, 844 / 2 + 300 / 2, 390 / 2, 844 / 2 - 300 / 2)) := rfl
  rw [h]
  constructor
  · norm_num [clamp0, py_max]
  · norm_num [clamp0, py_max]

/-- C3 as amended: the scroll command translates the semantic direction into
the inverted finger-swipe vector of the given distance centred on the screen
midpoint, and for a 390 × 844 screen, direction `"down"`, distance 300, the
computed finger swipe goes from `(195, 572)` to `(195, 272)`. -/
theorem cmd_scroll_example_amended :
    (∀ cx cy dist : ℚ,
      direction_lookup cx cy dist "down" = some (cx, cy + dist / 2, cx, cy - dist / 2)) ∧
    cmd_scroll_swipe [sample_app] "down" 300 = some (195, 572, 195, 272) := by
  refine ⟨fun cx cy dist => rfl, ?_⟩
  have h : cmd_scroll_swipe [sample_app] "down" 300 =
      some (clamp0 (390 / 2, 844 / 2 + 300 / 2, 390 / 2, 844 / 2 - 300 / 2)) := rfl
  rw [h]
  norm_num [clamp0, py_max]

/-- C5: for every screen size and distance, the direction-table entry for
`"up"` is the point-reflection through the screen centre of the entry for
`"down"`, and the entry for `"right"` is the point-reflection of the entry
for `"left"`. -/
theorem scroll_direction_reflection (w h dist : ℚ) :
    direction_lookup (w / 2) (h / 2) dist "up" =
      (direction_lookup (w / 2) (h / 2) dist "down").map (point_reflect (w / 2) (h / 2)) ∧
    direction_lookup (w / 2) (h / 2) dist "right" =
      (direction_lookup (w / 2) (h / 2) dist "left").map (point_reflect (w / 2) (h / 2)) := by
  constructor <;>
    · refine congrArg some ?_
      simp only [point_reflect, Prod.mk.injEq]
      refine ⟨by ring, by ring, by ring, by ring⟩

/-- C6: every coordinate of the swipe tuple `cmd_scroll` issues — both the
start point and the end point — is non-negative, for every screen size,
distance and direction. -/
theorem scroll_swipe_clamped (w h dist : ℚ) (direction : String) (v : ℚ × ℚ × ℚ × ℚ)
    (hv : scroll_swipe w h dist direction = some v) :
    0 ≤ v.1 ∧ 0 ≤ v.2.1 ∧ 0 ≤ v.2.2.1 ∧ 0 ≤ v.2.2.2 := by
  unfold scroll_swipe at hv
  cases hl : direction_lookup (w / 2) (h / 2) dist direction with
  | none =>
    rw [hl] at hv
    cases hv
  | some u =>
    rw [hl] at hv
    injection hv with hv
    subst hv
    exact ⟨le_py_max_left 0 u.1, le_py_max_left 0 u.2.1,
      le_py_max_left 0 u.2.2.1, le_py_max_left 0 u.2.2.2⟩

/-- Witness for C6: the clamp bound instantiated at a scroll so large that
the raw table value goes negative and the clamp is exercised. -/
theorem scroll_swipe_clamped_witness :
    0 ≤ (clamp0 (390 / 2, 844 / 2 + 2000 / 2, 390 / 2, 844 / 2 - 2000 / 2)).1 ∧
    0 ≤ (clamp0 (390 / 2, 844 / 2 + 2000 / 2, 390 / 2, 844 / 2 - 2000 / 2)).2.1 ∧
    0 ≤ (clamp0 (390 / 2, 844 / 2 + 2000 / 2, 390 / 2, 844 / 2 - 2000 / 2)).2.2.1 ∧
    0 ≤ (clamp0 (390 / 2, 844 / 2 + 2000 / 2, 390 / 2, 844 / 2 - 2000 / 2)).2.2.2 :=
  scroll_swipe_clamped 390 844 2000 "down"
    (clamp0 (390 / 2, 844 / 2 + 2000 / 2, 390 / 2, 844 / 2 - 2000 / 2)) rfl

/-- C7: every state-mutating navigation command — tap, tap-element (when the
element is found), swipe, scroll, text, key, button (when the name is
valid), openurl — produces exactly the fixed sequence snapshot, summary,
external action, settle delay, snapshot, summary. -/
theorem nav_commands_hook_sequence :
    cmd_tap_trace = hook_pattern "idb ui tap" ∧
    (∀ (elements : List Element) (label : String) (e : Element),
      find_element elements label = some e →
      cmd_tap_element_trace elements label = hook_pattern "idb ui tap") ∧
    cmd_swipe_trace = hook_pattern "idb ui swipe" ∧
    cmd_scroll_trace = hook_pattern "idb ui swipe" ∧
    cmd_text_trace = hook_pattern "idb ui text" ∧
    (∀ key, cmd_key_trace key = hook_pattern ("idb ui key " ++ cmd_key_val key)) ∧
    (∀ button, valid_buttons.contains (py_upper button) = true →
      cmd_button_trace button = hook_pattern ("idb ui button " ++ py_upper button)) ∧
    cmd_openurl_trace = hook_pattern "idb open" := by
  refine ⟨rfl, ?_, rfl, rfl, rfl, fun key => rfl, ?_, rfl⟩
  · intro elements label e he
    simp [cmd_tap_element_trace, he, hook_pattern]
  · intro button hb
    unfold cmd_button_trace
    rw [if_pos hb]
    rfl

/-- Witness for C7: the two hypothetical branches instantiated — a
tap-element whose label is found, and a valid hardware button. -/
theorem nav_commands_hook_sequence_witness :
    cmd_tap_element_trace [sample_sub, sample_exact] "Save" = hook_pattern "idb ui tap" ∧
      cmd_button_trace "home" = hook_pattern "idb ui button HOME" :=
  ⟨nav_commands_hook_sequence.2.1 [sample_sub, sample_exact] "Save" sample_exact rfl,
    nav_commands_hook_sequence.2.2.2.2.2.2.1 "home" rfl⟩

/-- C8: a checked external process that exits non-zero makes the tool print
the ERROR line plus the stderr of the process and exit with that same code;
the two local validation failures — element not found in `cmd_tap_element`,
invalid hardware-button name in `cmd_button` — print a diagnostic and exit
with code 1. -/
theorem error_handling_taxonomy :
    (∀ (cmd : List String) (result : CompletedProcess), result.returncode ≠ 0 →
      run cmd result true = .error (result.returncode, run_error_output cmd result) ∧
        (result.stderr ≠ "" → result.stderr ∈ run_error_output cmd result)) ∧
    (∀ (elements : List Element) (label : String), find_element elements label = none →
      cmd_tap_element_trace elements label =
        [.snapshot, .renderSummary, .diagnostic, .exitWith 1]) ∧
    (∀ button, valid_buttons.contains (py_upper button) = false →
      cmd_button_trace button = [.diagnostic, .exitWith 1]) := by
  refine ⟨?_, ?_, ?_⟩
  · intro cmd result h
    refine ⟨by simp [run, h], fun hs => ?_⟩
    simp [run_error_output, hs]
  · intro elements label h
    simp [cmd_tap_element_trace, h]
  · intro button hb
    unfold cmd_button_trace
    rw [if_neg]
    intro hc
    rw [hb] at hc
    cases hc

/-- Witness for C8: a process exiting 2 with stderr text propagates code 2
and prints that stderr; an unfindable label and an invalid button name both
exit with code 1. -/
theorem error_handling_taxonomy_witness :
    (run ["idb", "ui", "tap"] ⟨2, "", "boom"⟩ true =
        .error (2, run_error_output ["idb", "ui", "tap"] ⟨2, "", "boom"⟩) ∧
      ("boom" : String) ∈ run_error_output ["idb", "ui", "tap"] ⟨2, "", "boom"⟩) ∧
    cmd_tap_element_trace [] "Save" = [.snapshot, .renderSummary, .diagnostic, .exitWith 1] ∧
    cmd_button_trace "volume" = [.diagnostic, .exitWith 1] :=
  ⟨⟨(error_handling_taxonomy.1 ["idb", "ui", "tap"] ⟨2, "", "boom"⟩ (by decide)).1,
      (error_handling_taxonomy.1 ["idb", "ui", "tap"] ⟨2, "", "boom"⟩ (by decide)).2
        (by decide)⟩,
    error_handling_taxonomy.2.1 [] "Save" rfl,
    error_handling_taxonomy.2.2 "volume" rfl⟩

/-- C9: a direction outside up/down/left/right is rejected by the argparse
choices before any computation, an accepted direction is passed through
unchanged, and on every accepted direction the runtime table lookup
succeeds, for every screen centre and distance. -/
theorem scroll_direction_parse_boundary :
    (∀ s, scroll_direction_choices.contains s = false → parse_scroll_direction s = none) ∧
    (∀ s d, parse_scroll_direction s = some d →
      d = s ∧ scroll_direction_choices.contains s = true) ∧
    (∀ s, scroll_direction_choices.contains s = true →
      ∀ cx cy dist, (direction_lookup cx cy dist s).isSome = true) := by
  refine ⟨?_, ?_, ?_⟩
  · intro s h
    unfold parse_scroll_direction
    rw [if_neg]
    intro hc
    rw [h] at hc
    cases hc
  · intro s d h
    by_cases hc : scroll_direction_choices.contains s
    · refine ⟨?_, hc⟩
      rw [parse_scroll_direction, if_pos hc] at h
      injection h with h
      exact h.symm
    · rw [parse_scroll_direction, if_neg hc] at h
      cases h
  · intro s h cx cy dist
    have hs : s = "up" ∨ s = "down" ∨ s = "left" ∨ s = "right" := by
      have hmem := List.elem_iff.mp h
      simpa [scroll_direction_choices] using hmem
    rcases hs with rfl | rfl | rfl | rfl <;> rfl

/-- Witness for C9: the unknown direction `"diagonal"` is rejected at the
parse boundary, and the accepted direction `"down"` always finds a table
entry. -/
theorem scroll_direction_parse_boundary_witness :
    parse_scroll_direction "diagonal" = none ∧
      (direction_lookup 195 422 300 "down").isSome = true :=
  ⟨scroll_direction_parse_boundary.1 "diagonal" rfl,
    scroll_direction_parse_boundary.2.2 "down" rfl 195 422 300⟩

/-- C10: a key argument whose lower-casing is in the named-key table (and
which is not all digits) becomes the decimal rendering of its fixed keycode,
an all-digit string is used as-is, any other string is forwarded unchanged,
and the key command always runs the full hook sequence — it has no local
exit-1 rejection branch. -/
theorem key_translation :
    (∀ (key : String) (code : Nat), str_isdigit key = false →
      NAMED_KEYS.lookup (py_lower key) = some code → cmd_key_val key = toString code) ∧
    (cmd_key_val "enter" = "40" ∧ cmd_key_val "ENTER" = "40" ∧
      cmd_key_val "Backspace" = "42" ∧ cmd_key_val "tab" = "43") ∧
    (∀ key, str_isdigit key = true → cmd_key_val key = key) ∧
    (∀ key, str_isdigit key = false → NAMED_KEYS.lookup (py_lower key) = none →
      cmd_key_val key = key) ∧
    (∀ key, cmd_key_trace key = hook_pattern ("idb ui key " ++ cmd_key_val key) ∧
      UIEvent.exitWith 1 ∉ cmd_key_trace key) := by
  refine ⟨?_, ⟨rfl, rfl, rfl, rfl⟩, ?_, ?_, ?_⟩
  · intro key code hd hl
    simp [cmd_key_val, hd, hl]
  · intro key hd
    simp [cmd_key_val, hd]
  · intro key hd hl
    simp [cmd_key_val, hd, hl]
  · intro key
    refine ⟨rfl, ?_⟩
    simp [cmd_key_trace, with_ui_hooks]

/-- Witness for C10: a named key in mixed case, an all-digit string and an
unknown string, each translated as claimed. -/
theorem key_translation_witness :
    cmd_key_val "Return" = toString 40 ∧ cmd_key_val "123" = "123" ∧
      cmd_key_val "volume-up" = "volume-up" :=
  ⟨key_translation.1 "Return" 40 rfl rfl,
    key_translation.2.2.1 "123" rfl,
    key_translation.2.2.2.1 "volume-up" rfl rfl⟩

end IosSim
